import Mathlib

/-!
Verification development for the Square customers foreign data wrapper
(`src/src/lib.rs`, the active `ExampleFdw` implementation).

The wrapper exposes a remote paginated JSON REST resource as typed rows:
`init` records the base URL, `begin_scan` issues one HTTP GET and stores the
`customers` array of the response, `iter_scan` projects one stored record per
call onto the requested columns, and `end_scan` clears the record buffer.

External collaborators (the serde JSON parser, the RFC-3339 timestamp parser
of the host, and the HTTP transport) are modelled as explicit function
parameters, so every theorem quantifies over their behaviour; concrete
instances are supplied where closed evaluations are needed.

Rust panics (`expect` / `unwrap` / out-of-bounds indexing) are modelled as a
distinct `Outcome.panic` constructor, separate from the recoverable
`Result::Err` channel (`Outcome.err`).

A note on the state type: the Rust struct `ExampleFdw` declares only
`base_url`, `src_rows` and `src_idx`, yet `iter_scan` also reads and writes
`this.next_cursor`, `this.limit` and `this.access_token`.  We embed the
minimal completion that makes the code well-formed: those three fields exist
with their `Default` values (`None`, `""`, `""`) and are never written by
`init` or `begin_scan`, exactly as in the source.
-/

namespace SquareFdw

/-- JSON values as produced by the external serde parser.  Numbers are
modelled as integers; no code path of the wrapper inspects numeric values, so
the fractional part of a JSON number is irrelevant here. -/
inductive Json where
  | null : Json
  | bool (b : Bool) : Json
  | num (n : Int) : Json
  | str (s : String) : Json
  | arr (xs : List Json) : Json
  | obj (fields : List (String × Json)) : Json

namespace Json

/-- serde `Value::as_bool`. -/
def as_bool : Json → Option Bool
  | .bool b => some b
  | _ => none

/-- serde `Value::as_str`. -/
def as_str : Json → Option String
  | .str s => some s
  | _ => none

/-- serde `Value::as_array`. -/
def as_array : Json → Option (List Json)
  | .arr xs => some xs
  | _ => none

/-- serde `Value::as_object` (we only ever use whether it is `Some`). -/
def as_object : Json → Option (List (String × Json))
  | .obj fs => some fs
  | _ => none

/-- serde `value[key]` (the `Index` impl on `&Value`): yields the field value
when the receiver is an object containing the key, and `Null` otherwise. -/
def index (j : Json) (key : String) : Json :=
  match j with
  | .obj fs => (fs.lookup key).getD .null
  | _ => .null

/-- serde `Value::get(key)`: `Some` only when the receiver is an object that
contains the key. -/
def get (j : Json) (key : String) : Option Json :=
  match j with
  | .obj fs => fs.lookup key
  | _ => none

end Json

/-- String escaping for serialization of JSON strings (quote and backslash;
finer escaping of control characters plays no role in any property here). -/
def escapeStr (s : String) : String :=
  String.join (s.data.map fun c =>
    if c = '\"' then "\\\"" else if c = '\\' then "\\\\" else String.singleton c)

/-- serde `Value::to_string()`: compact serialization of a JSON value. -/
def renderJson : Json → String
  | .null => "null"
  | .bool b => if b then "true" else "false"
  | .num n => toString n
  | .str s => "\"" ++ escapeStr s ++ "\""
  | .arr xs =>
      "[" ++ String.intercalate "," (xs.attach.map fun x => renderJson x.1) ++ "]"
  | .obj fs =>
      "\x7b" ++
        String.intercalate "," (fs.attach.map fun f =>
          "\"" ++ escapeStr f.1.1 ++ "\":" ++ renderJson f.1.2) ++ "\x7d"
decreasing_by
  · simp_wf
    have := List.sizeOf_lt_of_mem x.2
    omega
  · simp_wf
    obtain ⟨⟨a, b⟩, hmem⟩ := f
    have := List.sizeOf_lt_of_mem hmem
    simp at this ⊢
    omega

/-- The host cell type (`supabase::wrappers::types::Cell`), restricted to the
constructors relevant to this wrapper.  `I64` exists in the host type but, as
the theorems below show, is never produced by this wrapper's projection. -/
inductive Cell where
  | Bool (b : Bool) : Cell
  | I64 (n : Int) : Cell
  | String (s : String) : Cell
  | Timestamp (t : Int) : Cell
  | Json (s : String) : Cell
deriving DecidableEq

/-- The host column type tags (`supabase::wrappers::types::TypeOid`). -/
inductive TypeOid where
  | Bool | I8 | I16 | I32 | I64 | F32 | F64 | Numeric
  | String | Date | Timestamp | Timestamptz | Json
deriving DecidableEq

/-- One requested output column: name and declared type. -/
structure Column where
  name : String
  type_oid : TypeOid
deriving DecidableEq

/-- HTTP request method (only `Get` is used). -/
inductive Method where
  | Get
deriving DecidableEq

/-- `http::Request` as built by the wrapper. -/
structure HttpRequest where
  method : Method
  url : String
  headers : List (String × String)
  body : String
deriving DecidableEq

/-- The host context: server options, table options and requested columns. -/
structure Context where
  srvOpts : List (String × String)
  tblOpts : List (String × String)
  columns : List Column

/-- Outcome of one wrapper call: a `Result::Ok`, a `Result::Err` carried back
to the host, or a Rust panic (which crashes the process). -/
inductive Outcome (α : Type) where
  | ok (a : α) : Outcome α
  | err (e : String) : Outcome α
  | panic (msg : String) : Outcome α
deriving DecidableEq

/-- The wrapper state.  The first three fields are the declared fields of the
Rust struct `ExampleFdw`; the last three are the fields `iter_scan` uses,
present here with their `Default` values and never written by `init` or
`begin_scan` (see the file comment). -/
structure FdwState where
  base_url : String
  src_rows : List Json
  src_idx : Nat
  next_cursor : Option String
  limit : String
  access_token : String

/-- `Default::default()` for the state. -/
def FdwState.default : FdwState :=
  ⟨"", [], 0, none, "", ""⟩

/-- Host option lookup `opts.get(name)`. -/
def optsGet (opts : List (String × String)) (key : String) : Option String :=
  opts.lookup key

/-- Modelled from the spec: the host option accessor `opts.require(name)`
(its code lives in the host wrapper library, outside this repository).  Per
the spec it fails with a `ConfigError` naming the missing required option. -/
def optsRequire (opts : List (String × String)) (key : String) :
    Except String String :=
  match optsGet opts key with
  | some v => .ok v
  | none => .error ("required option " ++ key ++ " is not set")

/-- Modelled from the spec: `opts.require_or(name, default)` — the value of
the option when present, the given default otherwise. -/
def optsRequireOr (opts : List (String × String)) (key dflt : String) : String :=
  (optsGet opts key).getD dflt

/-- `ExampleFdw::init` (lib.rs lines 45-53): re-creates the default instance,
then sets `base_url` from the server option `api_url` with the Square
customers endpoint as default.  Always returns `Ok(())`. -/
def initFdw (ctx : Context) : FdwState × Except String Unit :=
  let this := { FdwState.default with
    base_url := optsRequireOr ctx.srvOpts "api_url"
      "https://connect.squareup.com/v2/customers" }
  (this, .ok ())

/-- The request that `begin_scan` (lib.rs lines 58-79) builds from the table
options and the stored base URL, or the error of the first failing
`require`.  Mirrors the source order: `object` is required first, then the
URL is built from `limit` (default "100") and `cursor` (default "", appended
only when non-empty), then `access_token` is required. -/
def beginScanReq (ctx : Context) (this : FdwState) :
    Except String HttpRequest :=
  match optsRequire ctx.tblOpts "object" with
  | .error e => .error e
  | .ok _object =>
    let limit := (optsGet ctx.tblOpts "limit").getD "100"
    let cursor := (optsGet ctx.tblOpts "cursor").getD ""
    let url := this.base_url ++ "?limit=" ++ limit
    let url := if cursor = "" then url else url ++ "&cursor=" ++ cursor
    match optsRequire ctx.tblOpts "access_token" with
    | .error e => .error e
    | .ok access_token =>
      .ok ⟨.Get, url,
        [("Authorization", "Bearer " ++ access_token),
         ("Content-Type", "application/json")], ""⟩

/-- Result of `begin_scan`: the state afterwards, the HTTP requests issued in
order, and the call outcome. -/
structure BeginScanResult where
  state : FdwState
  reqs : List HttpRequest
  out : Outcome Unit

/-- `ExampleFdw::begin_scan` (lib.rs lines 55-92).  `parse` is serde's
`from_str`, `transport` is `http::get`.  Issues one GET, parses the body, and
stores `resp_json["customers"].as_array()` — the `expect` on that extraction
is a panic when the field is absent or not an array. -/
def beginScan (parse : String → Except String Json)
    (transport : HttpRequest → Except String String)
    (ctx : Context) (this : FdwState) : BeginScanResult :=
  match beginScanReq ctx this with
  | .error e => ⟨this, [], .err e⟩
  | .ok req =>
    match transport req with
    | .error e => ⟨this, [req], .err e⟩
    | .ok body =>
      match parse body with
      | .error e => ⟨this, [req], .err e⟩
      | .ok respJson =>
        match (respJson.index "customers").as_array with
        | none => ⟨this, [req], .panic "response should be a JSON array"⟩
        | some rows => ⟨{ this with src_rows := rows }, [req], .ok ()⟩

/-- One column conversion (the `match tgt_col.type_oid()` of lib.rs lines
143-161), given the source JSON value found for the column.  `parseTs` is the
host `time::parse_from_rfc3339`.  `Ok none` is a `Null` cell pushed to the
row; `Except.error` is the hard error returned from `iter_scan`. -/
def projectCell (parseTs : String → Except String Int) (col : Column)
    (src : Json) : Except String (Option Cell) :=
  match col.type_oid with
  | .Bool => .ok (src.as_bool.map Cell.Bool)
  | .String => .ok (src.as_str.map fun v => Cell.String v)
  | .Timestamp =>
    match src.as_str with
    | some s =>
      match parseTs s with
      | .ok ts => .ok (some (Cell.Timestamp ts))
      | .error e => .error e
    | none => .ok none
  | .Json => .ok (src.as_object.map fun _ => Cell.Json (renderJson src))
  | _ => .error ("column " ++ col.name ++ " data type is not supported")

/-- The `for tgt_col in ctx.get_columns()` loop of `iter_scan` (lib.rs lines
137-164).  `acc` is the sequence of cells pushed to the host row so far; the
result pairs the cells pushed with the error, if any, that aborted the loop.
A column whose name is not a field of the record (or a record that is not a
JSON object) aborts with the source-column-not-found error; quotation marks
around the column name in the source message are elided here. -/
def projectLoop (parseTs : String → Except String Int) (cols : List Column)
    (srcRow : Json) (acc : List (Option Cell)) :
    List (Option Cell) × Option String :=
  match cols with
  | [] => (acc, none)
  | col :: rest =>
    match srcRow.as_object.bind fun fs => fs.lookup col.name with
    | none => (acc, some ("source column " ++ col.name ++ " not found"))
    | some src =>
      match projectCell parseTs col src with
      | .error e => (acc, some e)
      | .ok cell => projectLoop parseTs rest srcRow (acc ++ [cell])

/-- Result of `iter_scan`: the state afterwards, the HTTP requests issued,
the cells pushed to the host row, and the call outcome (`ok (some 0)` for a
row produced, `ok none` for exhaustion). -/
structure IterScanResult where
  state : FdwState
  reqs : List HttpRequest
  cells : List (Option Cell)
  out : Outcome (Option Nat)

/-- The row-processing tail of `iter_scan` (lib.rs lines 135-169): index the
current source row (a Rust `Vec` index, which panics when out of bounds), run
the projection loop, and on success advance `src_idx`. -/
def processRow (parseTs : String → Except String Int) (ctx : Context)
    (st : FdwState) (reqs : List HttpRequest) : IterScanResult :=
  match st.src_rows[st.src_idx]? with
  | none => ⟨st, reqs, [], .panic "index out of bounds"⟩
  | some srcRow =>
    match projectLoop parseTs ctx.columns srcRow [] with
    | (cells, some e) => ⟨st, reqs, cells, .err e⟩
    | (cells, none) => ⟨{ st with src_idx := st.src_idx + 1 }, reqs, cells, .ok (some 0)⟩

/-- The next-page request `iter_scan` builds (lib.rs lines 100-118) from the
stored `limit`, `access_token` and the cursor; the cursor parameter is
appended only when the cursor string is non-empty. -/
def nextPageReq (st : FdwState) (cursor : String) : HttpRequest :=
  let url := st.base_url ++ "?limit=" ++ st.limit
  let url := if cursor = "" then url else url ++ "&cursor=" ++ cursor
  ⟨.Get, url,
    [("Authorization", "Bearer " ++ st.access_token),
     ("Content-Type", "application/json")], ""⟩

/-- `ExampleFdw::iter_scan` (lib.rs lines 94-170).  When the buffer is
consumed and `next_cursor` is set, fetches the next page: the `unwrap` on
`customers` and the `unwrap` on a present non-string `cursor` field are
panics.  When the buffer is consumed and `next_cursor` is `None`, reports
exhaustion.  Otherwise projects the current record.  On a panic outcome the
returned state is immaterial (the process aborts); we return the entry
state. -/
def iterScan (parse : String → Except String Json)
    (parseTs : String → Except String Int)
    (transport : HttpRequest → Except String String)
    (ctx : Context) (this : FdwState) : IterScanResult :=
  if this.src_rows.length ≤ this.src_idx then
    match this.next_cursor with
    | some cursor =>
      let req := nextPageReq this cursor
      match transport req with
      | .error e => ⟨this, [req], [], .err e⟩
      | .ok body =>
        match parse body with
        | .error e => ⟨this, [req], [], .err e⟩
        | .ok js =>
          match (js.index "customers").as_array with
          | none => ⟨this, [req], [], .panic "called unwrap on a None value"⟩
          | some rows =>
            match js.get "cursor" with
            | some c =>
              match c.as_str with
              | none => ⟨this, [req], [], .panic "called unwrap on a None value"⟩
              | some s =>
                processRow parseTs ctx
                  { this with src_rows := rows, next_cursor := some s, src_idx := 0 } [req]
            | none =>
              processRow parseTs ctx
                { this with src_rows := rows, next_cursor := none, src_idx := 0 } [req]
    | none => ⟨this, [], [], .ok none⟩
  else
    processRow parseTs ctx this []

/-- `ExampleFdw::re_scan` (lib.rs lines 172-174): always unsupported. -/
def reScan (_ctx : Context) : Except String Unit :=
  .error "re_scan on foreign table is not supported"

/-- `ExampleFdw::end_scan` (lib.rs lines 176-180): clears `src_rows` (and
nothing else) and returns `Ok(())`. -/
def endScan (this : FdwState) : FdwState × Except String Unit :=
  ({ this with src_rows := [] }, .ok ())

/-- `ExampleFdw::begin_modify` (lib.rs lines 182-184). -/
def beginModify (_ctx : Context) : Except String Unit :=
  .error "modify on foreign table is not supported"

/-- `ExampleFdw::insert` (lib.rs lines 186-188): returns `Ok(())`. -/
def insertFdw (_ctx : Context) (_row : List (Option Cell)) : Except String Unit :=
  .ok ()

/-- `ExampleFdw::update` (lib.rs lines 190-192): returns `Ok(())`. -/
def updateFdw (_ctx : Context) (_rowid : Cell) (_row : List (Option Cell)) :
    Except String Unit :=
  .ok ()

/-- `ExampleFdw::delete` (lib.rs lines 194-196): returns `Ok(())`. -/
def deleteFdw (_ctx : Context) (_rowid : Cell) : Except String Unit :=
  .ok ()

/-- `ExampleFdw::end_modify` (lib.rs lines 198-200): returns `Ok(())`. -/
def endModify (_ctx : Context) : Except String Unit :=
  .ok ()

/-!
Concrete instances of the external collaborators (JSON parser, timestamp
parser, HTTP transport) used to evaluate the theorems below on closed
inputs.  `page1` carries a continuation cursor, `page2` is a final page.
-/

/-- A first remote record. -/
def demoRec1 : Json := .obj [("id", .str "1")]

/-- A second remote record. -/
def demoRec2 : Json := .obj [("id", .str "2")]

/-- A non-final page: one record and a non-null string cursor. -/
def page1 : Json := .obj [("customers", .arr [demoRec1]), ("cursor", .str "abc")]

/-- A final page: one record, no cursor field. -/
def page2 : Json := .obj [("customers", .arr [demoRec2])]

/-- A page whose cursor field holds a JSON number (a non-string value). -/
def pageBadCursor : Json :=
  .obj [("customers", .arr [demoRec2]), ("cursor", .num 42)]

/-- A concrete JSON parser mapping a few fixed bodies to values. -/
def demoParse : String → Except String Json := fun s =>
  if s = "p1" then .ok page1
  else if s = "p2" then .ok page2
  else if s = "pbadcur" then .ok pageBadCursor
  else if s = "notobj" then .ok (.obj [])
  else .error "parse error"

/-- A concrete RFC-3339 parser accepting a single fixed timestamp. -/
def demoTs : String → Except String Int := fun s =>
  if s = "2024-01-01T00:00:00Z" then .ok 1704067200
  else .error "invalid rfc3339"

/-- A context with the two required table options and a short base URL. -/
def demoCtx : Context :=
  ⟨[("api_url", "B")], [("object", "customers"), ("access_token", "T")], []⟩

/-- The state after `init` on `demoCtx`. -/
def demoState : FdwState := (initFdw demoCtx).1

/-- The request `begin_scan` builds from `demoCtx` and `demoState`. -/
def demoReq : HttpRequest :=
  ⟨.Get, "B?limit=100",
    [("Authorization", "Bearer T"), ("Content-Type", "application/json")], ""⟩

/-- A concrete transport serving `page1` for the first-page URL and `page2`
for anything else. -/
def demoTransport : HttpRequest → Except String String := fun req =>
  if req.url = "B?limit=100" then .ok "p1" else .ok "p2"

/-!  Claims C1 and C2: pagination at scan start, and panics.  -/

/-- C1 (amended): `begin_scan` fetches exactly one page.  Whenever the option
checks pass and the single HTTP GET returns a body whose `customers` field is
a JSON array, `begin_scan` issues exactly that one request and the record
buffer afterwards is exactly that first page's array — later pages are not
fetched and nothing is concatenated. -/
theorem beginScan_single_page (parse : String → Except String Json)
    (transport : HttpRequest → Except String String)
    (ctx : Context) (st : FdwState) (req : HttpRequest) (body : String)
    (js : Json) (rows : List Json)
    (h1 : beginScanReq ctx st = .ok req)
    (h2 : transport req = .ok body)
    (h3 : parse body = .ok js)
    (h4 : (js.index "customers").as_array = some rows) :
    beginScan parse transport ctx st =
      ⟨{ st with src_rows := rows }, [req], .ok ()⟩ := by
  simp [beginScan, h1, h2, h3, h4]

/-- Witness for `beginScan_single_page` on the concrete two-page scenario. -/
theorem beginScan_single_page_witness :
    beginScan demoParse demoTransport demoCtx demoState =
      ⟨{ demoState with src_rows := [demoRec1] }, [demoReq], .ok ()⟩ :=
  beginScan_single_page demoParse demoTransport demoCtx demoState demoReq
    "p1" page1 [demoRec1] rfl rfl rfl rfl

/-- C1 counterexample: in a two-page scenario (the first page returns the
non-null cursor "abc", the transport would serve the second page), after
`begin_scan` the buffer holds only the first page's record and exactly one
HTTP call has occurred — not the concatenation of both pages after two
calls. -/
theorem beginScan_not_front_loaded_cex :
    (beginScan demoParse demoTransport demoCtx demoState).state.src_rows
      = [demoRec1] ∧
    (beginScan demoParse demoTransport demoCtx demoState).reqs.length = 1 ∧
    (page1.index "cursor").as_str = some "abc" ∧
    [demoRec1] ≠ [demoRec1, demoRec2] := by
  refine ⟨rfl, rfl, rfl, fun h => ?_⟩
  simpa using congrArg List.length h

/-- C2 (amended): transport failures and malformed JSON bodies are returned
to the host as error values, but a response whose `customers` field is absent
or not an array makes `begin_scan` panic (the `expect` at lib.rs line 86). -/
theorem beginScan_error_or_panic (parse : String → Except String Json)
    (transport : HttpRequest → Except String String)
    (ctx : Context) (st : FdwState) (req : HttpRequest)
    (h : beginScanReq ctx st = .ok req) :
    (∀ e, transport req = .error e →
      (beginScan parse transport ctx st).out = .err e) ∧
    (∀ body e, transport req = .ok body → parse body = .error e →
      (beginScan parse transport ctx st).out = .err e) ∧
    (∀ body js, transport req = .ok body → parse body = .ok js →
      (js.index "customers").as_array = none →
      (beginScan parse transport ctx st).out =
        .panic "response should be a JSON array") :=
  ⟨fun e he => by simp [beginScan, h, he],
   fun body e hb hp => by simp [beginScan, h, hb, hp],
   fun body js hb hp hn => by simp [beginScan, h, hb, hp, hn]⟩

/-- Witness for `beginScan_error_or_panic`: each of the three channels on a
concrete scenario. -/
theorem beginScan_error_or_panic_witness :
    (beginScan demoParse (fun _ => .error "net down") demoCtx demoState).out
      = .err "net down" ∧
    (beginScan demoParse (fun _ => .ok "garbage") demoCtx demoState).out
      = .err "parse error" ∧
    (beginScan demoParse (fun _ => .ok "notobj") demoCtx demoState).out
      = .panic "response should be a JSON array" :=
  ⟨(beginScan_error_or_panic demoParse (fun _ => .error "net down") demoCtx
      demoState demoReq rfl).1 "net down" rfl,
   (beginScan_error_or_panic demoParse (fun _ => .ok "garbage") demoCtx
      demoState demoReq rfl).2.1 "garbage" "parse error" rfl rfl,
   (beginScan_error_or_panic demoParse (fun _ => .ok "notobj") demoCtx
      demoState demoReq rfl).2.2 "notobj" (Json.obj []) rfl rfl rfl⟩

/-- C2 counterexample: the code does panic on unexpected input shapes — a
valid-JSON body without a `customers` array panics `begin_scan` (the
`expect`), and on a continuation-page fetch the same shape panics `iter_scan`
(the `unwrap` at lib.rs line 124). -/
theorem fdw_panics_cex :
    (beginScan demoParse (fun _ => .ok "notobj") demoCtx demoState).out
      = .panic "response should be a JSON array" ∧
    (iterScan demoParse demoTs (fun _ => .ok "notobj") demoCtx
      { demoState with next_cursor := some "abc" }).out
      = .panic "called unwrap on a None value" :=
  ⟨rfl, rfl⟩

/-!  Claims C3, C4, C5: the conversion table, the access-token check, and
missing source fields.  -/

/-- C3 (amended): the per-column conversion table actually implemented.
Bool, String, Timestamp and Json columns convert as the spec's table says
(identity / RFC-3339 parse / re-serialization, type mismatch giving a `Null`
cell and a malformed timestamp a hard error), but there is no Int64 arm:
every other type tag — `I64` included — is a hard error naming the column. -/
theorem projectCell_conversion_table (pts : String → Except String Int)
    (nm : String) :
    (∀ b, projectCell pts ⟨nm, .Bool⟩ (.bool b) = .ok (some (.Bool b))) ∧
    (∀ v : Json, v.as_bool = none → projectCell pts ⟨nm, .Bool⟩ v = .ok none) ∧
    (∀ s, projectCell pts ⟨nm, .String⟩ (.str s) = .ok (some (.String s))) ∧
    (∀ v : Json, v.as_str = none → projectCell pts ⟨nm, .String⟩ v = .ok none) ∧
    (∀ s t, pts s = .ok t →
      projectCell pts ⟨nm, .Timestamp⟩ (.str s) = .ok (some (.Timestamp t))) ∧
    (∀ s e, pts s = .error e →
      projectCell pts ⟨nm, .Timestamp⟩ (.str s) = .error e) ∧
    (∀ v : Json, v.as_str = none →
      projectCell pts ⟨nm, .Timestamp⟩ v = .ok none) ∧
    (∀ fs, projectCell pts ⟨nm, .Json⟩ (.obj fs)
      = .ok (some (.Json (renderJson (.obj fs))))) ∧
    (∀ v : Json, v.as_object = none → projectCell pts ⟨nm, .Json⟩ v = .ok none) ∧
    (∀ t : TypeOid, t ≠ .Bool → t ≠ .String → t ≠ .Timestamp → t ≠ .Json →
      ∀ v, projectCell pts ⟨nm, t⟩ v
        = .error ("column " ++ nm ++ " data type is not supported")) := by
  refine ⟨fun b => rfl, fun v hv => ?_, fun s => rfl, fun v hv => ?_,
    fun s t ht => ?_, fun s e he => ?_, fun v hv => ?_, fun fs => rfl,
    fun v hv => ?_, fun t h1 h2 h3 h4 v => ?_⟩
  · simp [projectCell, hv]
  · simp [projectCell, hv]
  · simp [projectCell, Json.as_str, ht]
  · simp [projectCell, Json.as_str, he]
  · simp [projectCell, hv]
  · simp [projectCell, hv]
  · cases t <;> simp_all [projectCell]

/-- Witness for `projectCell_conversion_table` on concrete values, one per
row of the table. -/
theorem projectCell_conversion_table_witness :
    projectCell demoTs ⟨"c", .Bool⟩ (.bool true) = .ok (some (.Bool true)) ∧
    projectCell demoTs ⟨"c", .Bool⟩ (.num 3) = .ok none ∧
    projectCell demoTs ⟨"c", .String⟩ (.str "x") = .ok (some (.String "x")) ∧
    projectCell demoTs ⟨"c", .String⟩ (.num 42) = .ok none ∧
    projectCell demoTs ⟨"c", .Timestamp⟩ (.str "2024-01-01T00:00:00Z")
      = .ok (some (.Timestamp 1704067200)) ∧
    projectCell demoTs ⟨"c", .Timestamp⟩ (.str "bad")
      = .error "invalid rfc3339" ∧
    projectCell demoTs ⟨"c", .Timestamp⟩ (.num 1) = .ok none ∧
    projectCell demoTs ⟨"c", .Json⟩ demoRec1
      = .ok (some (.Json (renderJson demoRec1))) ∧
    projectCell demoTs ⟨"c", .Json⟩ (.str "x") = .ok none ∧
    projectCell demoTs ⟨"c", .I64⟩ (.num 7)
      = .error "column c data type is not supported" :=
  ⟨(projectCell_conversion_table demoTs "c").1 true,
   (projectCell_conversion_table demoTs "c").2.1 (.num 3) rfl,
   (projectCell_conversion_table demoTs "c").2.2.1 "x",
   (projectCell_conversion_table demoTs "c").2.2.2.1 (.num 42) rfl,
   (projectCell_conversion_table demoTs "c").2.2.2.2.1 "2024-01-01T00:00:00Z"
     1704067200 rfl,
   (projectCell_conversion_table demoTs "c").2.2.2.2.2.1 "bad"
     "invalid rfc3339" rfl,
   (projectCell_conversion_table demoTs "c").2.2.2.2.2.2.1 (.num 1) rfl,
   (projectCell_conversion_table demoTs "c").2.2.2.2.2.2.2.1
     [("id", .str "1")],
   (projectCell_conversion_table demoTs "c").2.2.2.2.2.2.2.2.1 (.str "x") rfl,
   (projectCell_conversion_table demoTs "c").2.2.2.2.2.2.2.2.2 .I64
     (by decide) (by decide) (by decide) (by decide) (.num 7)⟩

/-- C3 counterexample: an Int64 column applied to a JSON number that is a
64-bit integer does not yield that integer — there is no `I64` arm, so the
catch-all makes it a hard error. -/
theorem projectCell_int64_cex :
    projectCell demoTs ⟨"a", .I64⟩ (.num 42)
      = .error "column a data type is not supported" ∧
    projectCell demoTs ⟨"a", .I64⟩ (.num 42) ≠ .ok (some (.I64 42)) :=
  ⟨rfl, by simp [projectCell]⟩

/-- A configuration that lacks the `access_token` option. -/
def ctxNoTok : Context := ⟨[], [("object", "customers")], []⟩

/-- C4 (amended): `init` never checks `access_token` and always succeeds; the
missing-option failure surfaces in `begin_scan`, which fails with the
missing-required-option error before issuing any HTTP request. -/
theorem access_token_checked_at_begin_scan
    (parse : String → Except String Json)
    (transport : HttpRequest → Except String String)
    (ctx : Context) (st : FdwState) (o : String)
    (ho : optsGet ctx.tblOpts "object" = some o)
    (ht : optsGet ctx.tblOpts "access_token" = none) :
    (initFdw ctx).2 = .ok () ∧
    beginScan parse transport ctx st =
      ⟨st, [], .err "required option access_token is not set"⟩ := by
  refine ⟨rfl, ?_⟩
  simp [beginScan, beginScanReq, optsRequire, ho, ht]

/-- Witness for `access_token_checked_at_begin_scan` on `ctxNoTok`. -/
theorem access_token_checked_at_begin_scan_witness :
    (initFdw ctxNoTok).2 = .ok () ∧
    beginScan demoParse demoTransport ctxNoTok demoState =
      ⟨demoState, [], .err "required option access_token is not set"⟩ :=
  access_token_checked_at_begin_scan demoParse demoTransport ctxNoTok
    demoState "customers" rfl rfl

/-- C4 counterexample: on a configuration missing `access_token`, `init`
succeeds rather than failing with a config error. -/
theorem init_missing_access_token_cex :
    (initFdw ctxNoTok).2 = .ok () :=
  rfl

/-- Helper for C5: once some requested column has no matching field in the
record, the projection loop necessarily ends with an error. -/
theorem projectLoop_missing_isSome (pts : String → Except String Int)
    (srcRow : Json) (col : Column)
    (hnone : srcRow.as_object.bind (fun fs => fs.lookup col.name) = none) :
    ∀ (cols : List Column) (acc : List (Option Cell)), col ∈ cols →
      ((projectLoop pts cols srcRow acc).2).isSome := by
  intro cols
  induction cols with
  | nil => intro acc h; cases h
  | cons c rest ih =>
    intro acc hmem
    rcases List.mem_cons.mp hmem with rfl | hmem'
    · simp [projectLoop, hnone]
    · cases hl : srcRow.as_object.bind (fun fs => fs.lookup c.name) with
      | none => simp [projectLoop, hl]
      | some src =>
        cases hc : projectCell pts c src with
        | error e => simp [projectLoop, hl, hc]
        | ok cell => simpa [projectLoop, hl, hc] using ih (acc ++ [cell]) hmem'

/-- C5: a requested column whose name has no exactly-matching field in the
record is a hard error: the projection loop ends with an error whenever such
a column is requested, the error at the failing column is exactly the
source-column-not-found message with nothing pushed for it, and the row-level
call surfaces it as an `Err` outcome — never a silent `Null` cell. -/
theorem missing_field_is_hard_error (pts : String → Except String Int)
    (ctx : Context) :
    (∀ (cols : List Column) (acc : List (Option Cell)) (srcRow : Json)
      (col : Column), col ∈ cols →
      srcRow.as_object.bind (fun fs => fs.lookup col.name) = none →
      ((projectLoop pts cols srcRow acc).2).isSome) ∧
    (∀ (col : Column) (rest : List Column) (acc : List (Option Cell))
      (srcRow : Json),
      srcRow.as_object.bind (fun fs => fs.lookup col.name) = none →
      projectLoop pts (col :: rest) srcRow acc =
        (acc, some ("source column " ++ col.name ++ " not found"))) ∧
    (∀ (st : FdwState) (srcRow : Json) (col : Column),
      st.src_rows[st.src_idx]? = some srcRow → col ∈ ctx.columns →
      srcRow.as_object.bind (fun fs => fs.lookup col.name) = none →
      ∃ e, (processRow pts ctx st []).out = .err e) := by
  refine ⟨fun cols acc srcRow col hmem hnone =>
      projectLoop_missing_isSome pts srcRow col hnone cols acc hmem,
    fun col rest acc srcRow hnone => by simp [projectLoop, hnone],
    fun st srcRow col hget hmem hnone => ?_⟩
  have h1 := projectLoop_missing_isSome pts srcRow col hnone ctx.columns [] hmem
  rcases hp : projectLoop pts ctx.columns srcRow [] with ⟨cells, oe⟩
  cases oe with
  | none => rw [hp] at h1; simp at h1
  | some e => exact ⟨e, by simp [processRow, hget, hp]⟩

/-- A context requesting the single column `b: Bool`. -/
def ctxColB : Context := ⟨[], [], [⟨"b", .Bool⟩]⟩

/-- A ready-to-iterate state holding the single record `demoRec1`. -/
def stOneRec : FdwState := ⟨"B", [demoRec1], 0, none, "", ""⟩

/-- Witness for `missing_field_is_hard_error`: `demoRec1` has no field `b`. -/
theorem missing_field_is_hard_error_witness :
    ((projectLoop demoTs [⟨"b", .Bool⟩] demoRec1 []).2).isSome ∧
    projectLoop demoTs [⟨"b", .Bool⟩] demoRec1 [] =
      ([], some "source column b not found") ∧
    ∃ e, (processRow demoTs ctxColB stOneRec []).out = .err e :=
  ⟨(missing_field_is_hard_error demoTs ctxColB).1 [⟨"b", .Bool⟩] [] demoRec1
     ⟨"b", .Bool⟩ (by decide) rfl,
   (missing_field_is_hard_error demoTs ctxColB).2.1 ⟨"b", .Bool⟩ [] []
     demoRec1 rfl,
   (missing_field_is_hard_error demoTs ctxColB).2.2 stOneRec demoRec1
     ⟨"b", .Bool⟩ rfl (by decide) rfl⟩

/-!  Claims C6 and C7: partial rows, and cursor extraction on continuation
pages.  -/

/-- C6 (amended): when projecting the current record fails at some column,
`iter_scan` returns the error and does not advance the read offset, but the
cells successfully converted before the failing column have already been
pushed to the caller's row — the pushes are not rolled back. -/
theorem iter_scan_partial_row (parse : String → Except String Json)
    (pts : String → Except String Int)
    (transport : HttpRequest → Except String String)
    (ctx : Context) (st : FdwState) (srcRow : Json)
    (cells : List (Option Cell)) (e : String)
    (hidx : st.src_idx < st.src_rows.length)
    (hget : st.src_rows[st.src_idx]? = some srcRow)
    (hp : projectLoop pts ctx.columns srcRow [] = (cells, some e)) :
    iterScan parse pts transport ctx st = ⟨st, [], cells, .err e⟩ := by
  have hlt : ¬ (st.src_rows.length ≤ st.src_idx) := Nat.not_le.mpr hidx
  simp [iterScan, hlt, processRow, hget, hp]

/-- A context requesting `id: String` then `b: Bool`; `demoRec1` has `id`
but no `b`, so projection fails at the second column. -/
def ctxTwoCols : Context := ⟨[], [], [⟨"id", .String⟩, ⟨"b", .Bool⟩]⟩

/-- Witness for `iter_scan_partial_row`: the first column's cell is pushed,
then the second column fails. -/
theorem iter_scan_partial_row_witness :
    iterScan demoParse demoTs demoTransport ctxTwoCols stOneRec =
      ⟨stOneRec, [], [some (.String "1")], .err "source column b not found"⟩ :=
  iter_scan_partial_row demoParse demoTs demoTransport ctxTwoCols stOneRec
    demoRec1 [some (.String "1")] "source column b not found"
    (by decide) rfl rfl

/-- C6 counterexample: a projection failure at the second column still leaves
the first column's cell pushed to the caller's row — the emitted cell list is
non-empty although the call errors. -/
theorem partial_cells_pushed_cex :
    (iterScan demoParse demoTs demoTransport ctxTwoCols stOneRec).cells
      = [some (.String "1")] ∧
    (iterScan demoParse demoTs demoTransport ctxTwoCols stOneRec).cells
      ≠ [] ∧
    (iterScan demoParse demoTs demoTransport ctxTwoCols stOneRec).out
      = .err "source column b not found" :=
  ⟨rfl, by decide, rfl⟩

/-- C7 (amended): on a continuation-page fetch, an absent top-level `cursor`
field is treated as "no more pages" (the stored cursor becomes `None` and the
scan proceeds normally), but a present non-string value at that field makes
`iter_scan` panic via `unwrap` instead of terminating tolerantly. -/
theorem next_page_cursor_handling (parse : String → Except String Json)
    (pts : String → Except String Int)
    (transport : HttpRequest → Except String String)
    (ctx : Context) (st : FdwState) (cursor : String)
    (hlen : st.src_rows.length ≤ st.src_idx)
    (hc : st.next_cursor = some cursor) :
    (∀ body js rows, transport (nextPageReq st cursor) = .ok body →
      parse body = .ok js → (js.index "customers").as_array = some rows →
      js.get "cursor" = none →
      iterScan parse pts transport ctx st =
        processRow pts ctx
          { st with src_rows := rows, next_cursor := none, src_idx := 0 }
          [nextPageReq st cursor]) ∧
    (∀ body js rows c, transport (nextPageReq st cursor) = .ok body →
      parse body = .ok js → (js.index "customers").as_array = some rows →
      js.get "cursor" = some c → c.as_str = none →
      iterScan parse pts transport ctx st =
        ⟨st, [nextPageReq st cursor], [],
          .panic "called unwrap on a None value"⟩) :=
  ⟨fun body js rows ht hp hrows hcur => by
      simp [iterScan, hlen, hc, ht, hp, hrows, hcur],
   fun body js rows c ht hp hrows hcur hstr => by
      simp [iterScan, hlen, hc, ht, hp, hrows, hcur, hstr]⟩

/-- A state whose buffer is consumed and whose stored cursor is `"abc"`. -/
def stEmptyCur : FdwState := ⟨"B", [], 0, some "abc", "", ""⟩

/-- Witness for `next_page_cursor_handling`: a final page without a cursor
field continues normally; a page with `cursor: 42` panics. -/
theorem next_page_cursor_handling_witness :
    iterScan demoParse demoTs (fun _ => .ok "p2") demoCtx stEmptyCur =
      processRow demoTs demoCtx
        { stEmptyCur with
            src_rows := [demoRec2]
            next_cursor := none
            src_idx := 0 }
        [nextPageReq stEmptyCur "abc"] ∧
    iterScan demoParse demoTs (fun _ => .ok "pbadcur") demoCtx stEmptyCur =
      ⟨stEmptyCur, [nextPageReq stEmptyCur "abc"], [],
        .panic "called unwrap on a None value"⟩ :=
  ⟨(next_page_cursor_handling demoParse demoTs (fun _ => .ok "p2") demoCtx
      stEmptyCur "abc" (by decide) rfl).1 "p2" page2 [demoRec2] rfl rfl rfl rfl,
   (next_page_cursor_handling demoParse demoTs (fun _ => .ok "pbadcur")
      demoCtx stEmptyCur "abc" (by decide) rfl).2 "pbadcur" pageBadCursor
      [demoRec2] (.num 42) rfl rfl rfl rfl rfl⟩

/-- C7 counterexample: a continuation page whose `cursor` field holds the
JSON number 42 makes `iter_scan` panic — it does not terminate normally with
a no-more-pages outcome. -/
theorem nonstring_cursor_panics_cex :
    (iterScan demoParse demoTs (fun _ => .ok "pbadcur") demoCtx
        stEmptyCur).out = .panic "called unwrap on a None value" ∧
    (iterScan demoParse demoTs (fun _ => .ok "pbadcur") demoCtx
        stEmptyCur).out ≠ .ok none :=
  ⟨rfl, by decide⟩

/-!  Claims C8 and C9: scan end, and the write path.  -/

/-- C8 (amended): `end_scan` empties the record buffer and succeeds, but does
not reset the read offset — `src_idx` keeps its prior value.  A second
consecutive `end_scan` is nevertheless a no-op: clearing the already-empty
buffer changes nothing. -/
theorem end_scan_behavior (st : FdwState) :
    (endScan st).1.src_rows = [] ∧
    (endScan st).1.src_idx = st.src_idx ∧
    (endScan st).2 = .ok () ∧
    endScan (endScan st).1 = endScan st :=
  ⟨rfl, rfl, rfl, rfl⟩

/-- A state whose read offset is 2. -/
def stIdx2 : FdwState := ⟨"B", [demoRec1], 2, none, "", ""⟩

/-- C8 counterexample: after `end_scan` on a state with offset 2, the offset
is still 2, not 0. -/
theorem end_scan_offset_not_reset_cex :
    (endScan stIdx2).1.src_idx = 2 ∧ (endScan stIdx2).1.src_idx ≠ 0 :=
  ⟨rfl, by decide⟩

/-- C9 (amended): only `begin_modify` rejects writes with a not-supported
error; `insert`, `update`, `delete` and `end_modify` all return `Ok(())`. -/
theorem write_path_behavior (ctx : Context) (row : List (Option Cell))
    (rowid : Cell) :
    beginModify ctx = .error "modify on foreign table is not supported" ∧
    insertFdw ctx row = .ok () ∧
    updateFdw ctx rowid row = .ok () ∧
    deleteFdw ctx rowid = .ok () ∧
    endModify ctx = .ok () :=
  ⟨rfl, rfl, rfl, rfl, rfl⟩

/-- C9 counterexample: `insert`, `update` and `delete` return `Ok(())` — none
of them returns a not-supported error. -/
theorem write_ops_return_ok_cex :
    insertFdw demoCtx [] = .ok () ∧
    updateFdw demoCtx (.Bool true) [] = .ok () ∧
    deleteFdw demoCtx (.Bool true) = .ok () ∧
    insertFdw demoCtx [] ≠ .error "modify on foreign table is not supported" :=
  ⟨rfl, rfl, rfl, by simp [insertFdw]⟩

/-!  Claim C10: the request URL built by `begin_scan`.  -/

/-- Helper: once the option checks pass, exactly the built request is issued,
whatever the transport and parser then do. -/
theorem beginScan_reqs_of_ok (parse : String → Except String Json)
    (transport : HttpRequest → Except String String)
    (ctx : Context) (st : FdwState) (req : HttpRequest)
    (h : beginScanReq ctx st = .ok req) :
    (beginScan parse transport ctx st).reqs = [req] := by
  cases ht : transport req with
  | error e => simp [beginScan, h, ht]
  | ok body =>
    cases hp : parse body with
    | error e => simp [beginScan, h, ht, hp]
    | ok js =>
      cases hr : (js.index "customers").as_array with
      | none => simp [beginScan, h, ht, hp, hr]
      | some rows => simp [beginScan, h, ht, hp, hr]

/-- C10: with the `limit` table option absent, the request `begin_scan`
sends carries `limit=100`, and the `cursor` query parameter is appended
exactly when a non-empty `cursor` option was supplied. -/
theorem begin_scan_default_limit (parse : String → Except String Json)
    (transport : HttpRequest → Except String String)
    (ctx : Context) (st : FdwState) (o tok : String)
    (ho : optsGet ctx.tblOpts "object" = some o)
    (hl : optsGet ctx.tblOpts "limit" = none)
    (htok : optsGet ctx.tblOpts "access_token" = some tok) :
    ((optsGet ctx.tblOpts "cursor").getD "" = "" →
      (beginScan parse transport ctx st).reqs =
        [⟨.Get, st.base_url ++ "?limit=100",
          [("Authorization", "Bearer " ++ tok),
           ("Content-Type", "application/json")], ""⟩]) ∧
    (∀ cu, optsGet ctx.tblOpts "cursor" = some cu → cu ≠ "" →
      (beginScan parse transport ctx st).reqs =
        [⟨.Get, st.base_url ++ "?limit=100&cursor=" ++ cu,
          [("Authorization", "Bearer " ++ tok),
           ("Content-Type", "application/json")], ""⟩]) := by
  constructor
  · intro hc
    apply beginScan_reqs_of_ok
    have hurl : st.base_url ++ "?limit=" ++ "100" = st.base_url ++ "?limit=100" := by
      rw [String.append_assoc]; rfl
    simp [beginScanReq, optsRequire, ho, htok, hl, hc, hurl]
  · intro cu hcu hne
    apply beginScan_reqs_of_ok
    have hurl : st.base_url ++ "?limit=" ++ "100" ++ "&cursor=" ++ cu
        = st.base_url ++ "?limit=100&cursor=" ++ cu := by
      rw [String.append_assoc st.base_url "?limit=" "100",
          String.append_assoc st.base_url ("?limit=" ++ "100") "&cursor="]
      rfl
    simp [beginScanReq, optsRequire, ho, htok, hl, hcu, hne, hurl]

/-- A configuration supplying the non-empty `cursor` option "abc". -/
def ctxCur : Context :=
  ⟨[("api_url", "B")],
   [("object", "customers"), ("access_token", "T"), ("cursor", "abc")], []⟩

/-- Witness for `begin_scan_default_limit`: without a `cursor` option the URL
is `B?limit=100`; with `cursor = "abc"` it is `B?limit=100&cursor=abc`. -/
theorem begin_scan_default_limit_witness :
    (beginScan demoParse demoTransport demoCtx demoState).reqs = [demoReq] ∧
    (beginScan demoParse demoTransport ctxCur demoState).reqs =
      [⟨.Get, "B?limit=100&cursor=abc",
        [("Authorization", "Bearer T"),
         ("Content-Type", "application/json")], ""⟩] :=
  ⟨(begin_scan_default_limit demoParse demoTransport demoCtx demoState
      "customers" "T" rfl rfl rfl).1 rfl,
   (begin_scan_default_limit demoParse demoTransport ctxCur demoState
      "customers" "T" rfl rfl rfl).2 "abc" rfl (by decide)⟩

end SquareFdw
